import Mathlib

/-!
Shallow embedding of `router_rebooter.py` and `pulse_gpio_pin.py`
(powerpak/router-rebooter), concentrating on the monitoring/retry state
machine in `RouterRebooter.start_main_loop`, the probe aggregation in
`RouterRebooter.is_network_up`, the argument validation in the `__main__`
block, and the GPIO pulse discipline of `pin_pulser`.

Time intervals (Python floats) are modelled as rationals; Python ints as
`Int` (the reboot counter, initialised to 0 and only ever set to 0 or
incremented, is modelled as `Nat`). Side effects of one loop iteration
(actuator pulses, the sleep duration, log lines) are reified in a
`StepResult` record; log messages become constructors of `LogEvent`.
-/

namespace RouterRebooter

/-- Module-level constant `MAX_PIN_NUM` from `pulse_gpio_pin.py`. -/
def MAX_PIN_NUM : Int := 27

/-- Module-level constant `MIN_PING_INTERVAL` from `router_rebooter.py`. -/
def MIN_PING_INTERVAL : ℚ := 1

/-- Module-level default `PING_INTERVAL = 15.0`. -/
def PING_INTERVAL : ℚ := 15

/-- Module-level default `POST_REBOOT_INTERVAL = 5 * 60.0`. -/
def POST_REBOOT_INTERVAL : ℚ := 5 * 60

/-- Module-level default `REBOOT_LIMIT = 3`. -/
def REBOOT_LIMIT : Int := 3

/-- Module-level default `POST_REBOOT_LIMIT_INTERVAL = 3 * 60 * 60.0`. -/
def POST_REBOOT_LIMIT_INTERVAL : ℚ := 3 * 60 * 60

/-- Module-level default `RELAY_GPIO_PIN = 21`. -/
def RELAY_GPIO_PIN : Int := 21

/-- Module-level default `PULSE_FOR_SECONDS = 2.0`. -/
def PULSE_FOR_SECONDS : ℚ := 2

/-- Module-level constant `PING_DESTINATIONS` from `router_rebooter.py`. -/
def PING_DESTINATIONS : List String := ["1.1.1.1", "4.2.2.2", "8.8.8.8"]

/-- The exit code of `sys.exit(5)` in `start_main_loop` when
`verify_interface` fails. -/
def INTERFACE_DOWN_EXIT_CODE : Nat := 5

/-- The exit code of `sys.exit(2)` in `ArgumentParser.error`. -/
def ARG_ERROR_EXIT_CODE : Nat := 2

/-- The configuration fields stored by `RouterRebooter.__init__`
(the string-valued `interface` field plays no role in the claims and is
omitted). -/
structure Config where
  ping_interval : ℚ
  post_reboot_interval : ℚ
  reboot_limit : Int
  post_reboot_limit_interval : ℚ
  relay_gpio_pin : Int
  pulse_for_seconds : ℚ
  deriving Repr, DecidableEq

/-- The mutable loop state of `RouterRebooter`: `self.reboot_count`
(initialised to 0 and only ever reset to 0 or incremented, hence `Nat`)
and `self.reboots_reached_limit`. -/
structure RebooterState where
  reboot_count : Nat
  reboots_reached_limit : Bool
  deriving Repr, DecidableEq

/-- The state set up by `__init__`: `reboot_count = 0`,
`reboots_reached_limit = False`. -/
def init_state : RebooterState :=
  { reboot_count := 0, reboots_reached_limit := false }

/-- The log lines emitted inside the `while True` loop of
`start_main_loop`, reified as events. -/
inductive LogEvent where
  | networkBackUp
  | reachedRebootLimit (limit : Int)
  | sleepingPostLimit (seconds : ℚ)
  | networkDownPulsing (pin : Int)
  | rebootAttempt (n : Nat)
  deriving Repr, DecidableEq

/-- What one iteration of the `while True` loop produces: the new mutable
state, the number of actuator pulses performed (`pin_pulser`/`pulse_pin`
invocations), the duration of the trailing `sleep`, and the log lines. -/
structure StepResult where
  state : RebooterState
  pulses : Nat
  sleep : ℚ
  logs : List LogEvent
  deriving Repr, DecidableEq

/-- One iteration of the `while True` loop in `start_main_loop`
(`router_rebooter.py` lines 88–107), given the verdict `up` returned by
`self.is_network_up()`:

* if up: when `self.reboot_count > 0 or self.reboots_reached_limit`, log
  recovery and clear both fields; sleep `ping_interval`;
* elif `self.reboot_limit > 0 and self.reboot_count >= self.reboot_limit`:
  zero the counter, set the flag, log, sleep `post_reboot_limit_interval`;
* else: pulse the GPIO pin once, increment the counter, log, sleep
  `post_reboot_interval`. -/
def stepIter (cfg : Config) (up : Bool) (s : RebooterState) : StepResult :=
  if up then
    if 0 < s.reboot_count ∨ s.reboots_reached_limit = true then
      { state := { reboot_count := 0, reboots_reached_limit := false },
        pulses := 0, sleep := cfg.ping_interval,
        logs := [.networkBackUp] }
    else
      { state := s, pulses := 0, sleep := cfg.ping_interval, logs := [] }
  else if 0 < cfg.reboot_limit ∧ (s.reboot_count : Int) ≥ cfg.reboot_limit then
    { state := { reboot_count := 0, reboots_reached_limit := true },
      pulses := 0, sleep := cfg.post_reboot_limit_interval,
      logs := [.reachedRebootLimit cfg.reboot_limit,
               .sleepingPostLimit cfg.post_reboot_limit_interval] }
  else
    { state := { reboot_count := s.reboot_count + 1,
                 reboots_reached_limit := s.reboots_reached_limit },
      pulses := 1, sleep := cfg.post_reboot_interval,
      logs := [.networkDownPulsing cfg.relay_gpio_pin,
               .rebootAttempt (s.reboot_count + 1)] }

/-- Iterate the loop over a list of successive `is_network_up` verdicts,
keeping only the mutable state. A state is reachable exactly when it is
`run_loop cfg vs init_state` for some verdict list `vs`. -/
def run_loop (cfg : Config) (verdicts : List Bool) (s : RebooterState) :
    RebooterState :=
  verdicts.foldl (fun t v => (stepIter cfg v t).state) s

/-- Iterate the loop over a list of successive `is_network_up` verdicts,
collecting the full result of every iteration in order. -/
def run_steps (cfg : Config) (verdicts : List Bool) (s : RebooterState) :
    List StepResult :=
  match verdicts with
  | [] => []
  | v :: vs =>
      let r := stepIter cfg v s
      r :: run_steps cfg vs r.state

/-- `RouterRebooter.is_network_up` (lines 69–76): shuffle the ping
destinations, then `any(map(ping, dests))`. The shuffle is modelled by
taking the shuffled list as an argument (any permutation of the
destination list); the per-destination probe outcome is the oracle
`ping`. -/
def is_network_up (ping : String → Bool) (shuffled : List String) : Bool :=
  shuffled.any ping

/-- The command-line arguments of the `__main__` block that take part in
validation (the string-valued `interface` argument is never validated and
is omitted). -/
structure Args where
  ping_interval : ℚ
  post_reboot_interval : ℚ
  reboot_limit : Int
  post_reboot_limit_interval : ℚ
  relay_gpio_pin : Int
  pulse_for_seconds : ℚ
  deriving Repr, DecidableEq

/-- The distinct `parser.error` messages of the `__main__` validation
block (lines 160–170), in source order. -/
inductive ValidationError where
  | relayGpioPinOutOfRange
  | pulseForSecondsNotPositive
  | pingIntervalTooSmall
  | postRebootIntervalTooShort
  | postRebootLimitIntervalTooShort
  deriving Repr, DecidableEq

/-- The validation performed by the `__main__` block (lines 160–170), in
source order; `none` means every check passed and control reaches
`rebooter.start_main_loop()`. Note the block contains no check on
`args.reboot_limit`. -/
def validate_args (a : Args) : Option ValidationError :=
  if ¬(0 < a.relay_gpio_pin ∧ a.relay_gpio_pin < MAX_PIN_NUM) then
    some .relayGpioPinOutOfRange
  else if a.pulse_for_seconds ≤ 0 then
    some .pulseForSecondsNotPositive
  else if a.ping_interval < MIN_PING_INTERVAL then
    some .pingIntervalTooSmall
  else if a.post_reboot_interval < a.ping_interval then
    some .postRebootIntervalTooShort
  else if a.post_reboot_limit_interval < a.post_reboot_interval then
    some .postRebootLimitIntervalTooShort
  else
    none

/-- `RouterRebooter(**vars(args))`: the configuration built from parsed
arguments. -/
def configOfArgs (a : Args) : Config :=
  { ping_interval := a.ping_interval,
    post_reboot_interval := a.post_reboot_interval,
    reboot_limit := a.reboot_limit,
    post_reboot_limit_interval := a.post_reboot_limit_interval,
    relay_gpio_pin := a.relay_gpio_pin,
    pulse_for_seconds := a.pulse_for_seconds }

/-- The fate of the `__main__` block after parsing: either
`parser.error` fires (printing usage to stderr and calling
`sys.exit(ARG_ERROR_EXIT_CODE)`) before the loop, or the main loop is
entered with the configuration built from the arguments. -/
inductive MainOutcome where
  | argError (e : ValidationError) (exitCode : Nat)
  | runMainLoop (cfg : Config)
  deriving Repr, DecidableEq

/-- Lines 160–174 of `router_rebooter.py`: run the validation block; on
the first failing check, `parser.error` exits with code 2; otherwise
construct the `RouterRebooter` and enter `start_main_loop`. -/
def main_dispatch (a : Args) : MainOutcome :=
  match validate_args a with
  | some e => .argError e ARG_ERROR_EXIT_CODE
  | none => .runMainLoop (configOfArgs a)

/-- An `Args` record holding the module-level defaults of
`router_rebooter.py` (the `default=` values of every flag). -/
def default_args : Args :=
  { ping_interval := PING_INTERVAL,
    post_reboot_interval := POST_REBOOT_INTERVAL,
    reboot_limit := REBOOT_LIMIT,
    post_reboot_limit_interval := POST_REBOOT_LIMIT_INTERVAL,
    relay_gpio_pin := RELAY_GPIO_PIN,
    pulse_for_seconds := PULSE_FOR_SECONDS }

/-- The default configuration (all flags left at their defaults). -/
def default_config : Config := configOfArgs default_args

end RouterRebooter

namespace PulseGpioPin

/-- The externally visible GPIO calls made by `pin_pulser` and the
`pulse_pin` closure it yields (`pulse_gpio_pin.py` lines 30–44), plus the
`sleep` between the two `GPIO.output` calls. -/
inductive GpioAction where
  | setwarnings (flag : Bool)
  | setmodeBCM
  | setupOut (pin : Int)
  | output (pin : Int) (value : Bool)
  | sleepFor (seconds : ℚ)
  | cleanup
  deriving Repr, DecidableEq

/-- The calls of the `try` body of `pin_pulser pin` when the yielded
`pulse_pin` is invoked once with `for_seconds`: the three setup calls,
then drive the pin on, hold, drive it off. -/
def pin_pulser_body (pin : Int) (for_seconds : ℚ) : List GpioAction :=
  [.setwarnings false, .setmodeBCM, .setupOut pin,
   .output pin true, .sleepFor for_seconds, .output pin false]

/-- The complete action trace of `with pin_pulser(pin) as pulse_pin:
pulse_pin(for_seconds)` when the body runs its first `k` actions and then
raises (or runs to completion, when `k` is at least the body length): the
`finally` clause appends `GPIO.cleanup()` unconditionally. -/
def pin_pulser_trace (pin : Int) (for_seconds : ℚ) (k : Nat) :
    List GpioAction :=
  (pin_pulser_body pin for_seconds).take k ++ [.cleanup]

/-- The effect of one GPIO call on whether the control line for `pin` is
driven active: `GPIO.output(pin, v)` sets it to `v`, and `GPIO.cleanup()`
releases every channel back to the inactive input state. -/
def applyAction (pin : Int) (active : Bool) : GpioAction → Bool
  | .output p v => if p = pin then v else active
  | .cleanup => false
  | _ => active

/-- Whether the control line for `pin` is left driven active after the
given trace of GPIO calls, starting from the inactive state. -/
def lineActiveAfter (pin : Int) (trace : List GpioAction) : Bool :=
  trace.foldl (applyAction pin) false

end PulseGpioPin

namespace RouterRebooter

/-! ## Helper lemmas -/

/-- Unfolding `run_loop` one verdict at a time. -/
theorem run_loop_cons (cfg : Config) (v : Bool) (vs : List Bool)
    (s : RebooterState) :
    run_loop cfg (v :: vs) s = run_loop cfg vs (stepIter cfg v s).state := by
  simp [run_loop]

/-- A property preserved by every step holds after any run. -/
theorem run_loop_invariant (cfg : Config) (P : RebooterState → Prop)
    (step : ∀ up s, P s → P (stepIter cfg up s).state) :
    ∀ (vs : List Bool) (s : RebooterState), P s → P (run_loop cfg vs s) := by
  intro vs
  induction vs with
  | nil => intro s hs; simpa [run_loop] using hs
  | cons v vs ih =>
      intro s hs
      rw [run_loop_cons]
      exact ih _ (step v s hs)

/-- One step keeps the counter within the limit, when the limit is
positive. -/
theorem stepIter_count_le (cfg : Config) (hl : 0 < cfg.reboot_limit)
    (up : Bool) (s : RebooterState)
    (hs : (s.reboot_count : Int) ≤ cfg.reboot_limit) :
    ((stepIter cfg up s).state.reboot_count : Int) ≤ cfg.reboot_limit := by
  unfold stepIter
  by_cases hup : up = true
  · subst hup
    by_cases hrec : 0 < s.reboot_count ∨ s.reboots_reached_limit = true
    · simp [hrec]
      omega
    · simpa [hrec] using hs
  · replace hup : up = false := by
      cases up <;> simp_all
    subst hup
    by_cases hlim : 0 < cfg.reboot_limit ∧ (s.reboot_count : Int) ≥ cfg.reboot_limit
    · simp [hlim]
      omega
    · have hlt : (s.reboot_count : Int) < cfg.reboot_limit := by
        rcases not_and_or.mp hlim with h | h
        · exact absurd hl h
        · omega
      simp [hlim]
      omega

/-- One step never sets the limit flag when the limit is not positive. -/
theorem stepIter_flag_stays_false (cfg : Config) (hl : cfg.reboot_limit ≤ 0)
    (up : Bool) (s : RebooterState)
    (hs : s.reboots_reached_limit = false) :
    (stepIter cfg up s).state.reboots_reached_limit = false := by
  unfold stepIter
  by_cases hup : up = true
  · subst hup
    by_cases hrec : 0 < s.reboot_count ∨ s.reboots_reached_limit = true
    · simp [hrec]
    · simpa [hrec] using hs
  · replace hup : up = false := by
      cases up <;> simp_all
    subst hup
    have hlim : ¬(0 < cfg.reboot_limit ∧ (s.reboot_count : Int) ≥ cfg.reboot_limit) := by
      intro h
      omega
    simpa [hlim] using hs

/-! ## Claim theorems -/

/-- C1: with `resetLimit = 3`, starting from the baseline state, each of
the first three consecutive down verdicts triggers exactly one actuator
pulse and increments `reboot_count` to 1, 2, 3; the fourth down verdict
triggers no pulse, sets `reboots_reached_limit`, resets the counter to 0
and sleeps `post_reboot_limit_interval`. -/
theorem limit_three_first_four_down_verdicts (cfg : Config)
    (h : cfg.reboot_limit = 3) :
    run_steps cfg [false, false, false, false] init_state =
      [{ state := { reboot_count := 1, reboots_reached_limit := false },
         pulses := 1, sleep := cfg.post_reboot_interval,
         logs := [.networkDownPulsing cfg.relay_gpio_pin, .rebootAttempt 1] },
       { state := { reboot_count := 2, reboots_reached_limit := false },
         pulses := 1, sleep := cfg.post_reboot_interval,
         logs := [.networkDownPulsing cfg.relay_gpio_pin, .rebootAttempt 2] },
       { state := { reboot_count := 3, reboots_reached_limit := false },
         pulses := 1, sleep := cfg.post_reboot_interval,
         logs := [.networkDownPulsing cfg.relay_gpio_pin, .rebootAttempt 3] },
       { state := { reboot_count := 0, reboots_reached_limit := true },
         pulses := 0, sleep := cfg.post_reboot_limit_interval,
         logs := [.reachedRebootLimit 3,
                  .sleepingPostLimit cfg.post_reboot_limit_interval] }] := by
  norm_num [run_steps, stepIter, init_state, h]

/-- Witness for C1 at the default configuration (whose limit is 3). -/
theorem limit_three_first_four_down_verdicts_witness :
    run_steps default_config [false, false, false, false] init_state =
      [{ state := { reboot_count := 1, reboots_reached_limit := false },
         pulses := 1, sleep := default_config.post_reboot_interval,
         logs := [.networkDownPulsing default_config.relay_gpio_pin,
                  .rebootAttempt 1] },
       { state := { reboot_count := 2, reboots_reached_limit := false },
         pulses := 1, sleep := default_config.post_reboot_interval,
         logs := [.networkDownPulsing default_config.relay_gpio_pin,
                  .rebootAttempt 2] },
       { state := { reboot_count := 3, reboots_reached_limit := false },
         pulses := 1, sleep := default_config.post_reboot_interval,
         logs := [.networkDownPulsing default_config.relay_gpio_pin,
                  .rebootAttempt 3] },
       { state := { reboot_count := 0, reboots_reached_limit := true },
         pulses := 0, sleep := default_config.post_reboot_limit_interval,
         logs := [.reachedRebootLimit 3,
                  .sleepingPostLimit default_config.post_reboot_limit_interval] }] :=
  limit_three_first_four_down_verdicts default_config (by decide)

/-- C2 counterexample: with the default configuration (limit 3), after the
reachable sequence of five consecutive down verdicts the controller is in
a state with `reboots_reached_limit = true` and `reboot_count = 1 > 0`:
the two are not mutually exclusive over reachable post-transition
states. -/
theorem limit_flag_and_counter_coexist_cex :
    (run_loop default_config [false, false, false, false, false]
        init_state).reboots_reached_limit = true ∧
    0 < (run_loop default_config [false, false, false, false, false]
        init_state).reboot_count := by
  decide

/-- C2 (amended): any loop-iteration transition that raises
`reboots_reached_limit` from false to true leaves `reboot_count = 0`
(entering the limit-backoff branch always clears the counter); the flag
can however coexist with a positive counter later, since subsequent down
verdicts increment the counter without clearing the flag. -/
theorem entering_backoff_clears_counter (cfg : Config) (up : Bool)
    (s : RebooterState) (h0 : s.reboots_reached_limit = false)
    (h : (stepIter cfg up s).state.reboots_reached_limit = true) :
    (stepIter cfg up s).state.reboot_count = 0 := by
  unfold stepIter at h ⊢
  by_cases hup : up = true
  · subst hup
    by_cases hrec : 0 < s.reboot_count ∨ s.reboots_reached_limit = true
    · simp [hrec]
    · simp [hrec] at h
      simp_all
  · replace hup : up = false := by
      cases up <;> simp_all
    subst hup
    by_cases hlim : 0 < cfg.reboot_limit ∧ (s.reboot_count : Int) ≥ cfg.reboot_limit
    · simp [hlim]
    · simp [hlim] at h
      simp_all

/-- Witness for the amended C2: the fourth down verdict at limit 3. -/
theorem entering_backoff_clears_counter_witness :
    (stepIter default_config false
        { reboot_count := 3, reboots_reached_limit := false }).state.reboot_count = 0 :=
  entering_backoff_clears_counter default_config false
    { reboot_count := 3, reboots_reached_limit := false }
    (by decide) (by decide)

/-- C3 counterexample: the argument set that differs from the defaults
only by `reboot_limit = -1` is negative in that field yet passes every
validation check, and the `__main__` block proceeds into the main loop
instead of exiting with an error: `resetLimit >= 0` is never
validated. -/
theorem negative_reboot_limit_passes_validation_cex :
    ({ default_args with reboot_limit := -1 } : Args).reboot_limit < 0 ∧
    main_dispatch { default_args with reboot_limit := -1 } =
      .runMainLoop (configOfArgs { default_args with reboot_limit := -1 }) := by
  constructor
  · decide
  · norm_num [main_dispatch, validate_args, default_args, MAX_PIN_NUM,
      MIN_PING_INTERVAL, RELAY_GPIO_PIN, PULSE_FOR_SECONDS, PING_INTERVAL,
      POST_REBOOT_INTERVAL, POST_REBOOT_LIMIT_INTERVAL]

/-- C3 (amended): each of the five constraints the `__main__` block does
check (gpio pin range, positive pulse duration, minimum ping interval,
post-reboot interval at least the ping interval, post-limit interval at
least the post-reboot interval) is validated before the loop starts: an
argument set violating any of them makes `parser.error` exit with the
fixed code 2, which is non-zero and distinct from the interface-not-up
fatal code 5, without entering the loop. `resetLimit >= 0` is not among
the checks: a negative reboot limit is accepted. -/
theorem checked_constraints_cause_arg_error (a : Args)
    (h : ¬(0 < a.relay_gpio_pin ∧ a.relay_gpio_pin < MAX_PIN_NUM) ∨
         a.pulse_for_seconds ≤ 0 ∨
         a.ping_interval < MIN_PING_INTERVAL ∨
         a.post_reboot_interval < a.ping_interval ∨
         a.post_reboot_limit_interval < a.post_reboot_interval) :
    (∃ e, main_dispatch a = .argError e ARG_ERROR_EXIT_CODE) ∧
    ARG_ERROR_EXIT_CODE ≠ 0 ∧
    ARG_ERROR_EXIT_CODE ≠ INTERFACE_DOWN_EXIT_CODE := by
  refine ⟨?_, by decide, by decide⟩
  unfold main_dispatch validate_args
  by_cases h1 : ¬(0 < a.relay_gpio_pin ∧ a.relay_gpio_pin < MAX_PIN_NUM)
  · exact ⟨.relayGpioPinOutOfRange, by simp [h1]⟩
  by_cases h2 : a.pulse_for_seconds ≤ 0
  · exact ⟨.pulseForSecondsNotPositive, by simp [h1, h2]⟩
  by_cases h3 : a.ping_interval < MIN_PING_INTERVAL
  · exact ⟨.pingIntervalTooSmall, by simp [h1, h2, h3]⟩
  by_cases h4 : a.post_reboot_interval < a.ping_interval
  · exact ⟨.postRebootIntervalTooShort, by simp [h1, h2, h3, h4]⟩
  by_cases h5 : a.post_reboot_limit_interval < a.post_reboot_interval
  · exact ⟨.postRebootLimitIntervalTooShort, by simp [h1, h2, h3, h4, h5]⟩
  · tauto

/-- Witness for the amended C3: a zero ping interval is rejected. -/
theorem checked_constraints_cause_arg_error_witness :
    (∃ e, main_dispatch { default_args with ping_interval := 0 } =
      .argError e ARG_ERROR_EXIT_CODE) ∧
    ARG_ERROR_EXIT_CODE ≠ 0 ∧
    ARG_ERROR_EXIT_CODE ≠ INTERFACE_DOWN_EXIT_CODE :=
  checked_constraints_cause_arg_error { default_args with ping_interval := 0 }
    (by right; right; left; norm_num [default_args, MIN_PING_INTERVAL])

/-- C4: for every assignment of probe outcomes and every shuffle of the
destination list, `is_network_up` returns true exactly when some
destination's probe succeeds, and false exactly when every destination's
probe fails. -/
theorem is_network_up_iff_some_destination_reachable
    (ping : String → Bool) (l : List String)
    (h : l.Perm PING_DESTINATIONS) :
    (is_network_up ping l = true ↔ ∃ d ∈ PING_DESTINATIONS, ping d = true) ∧
    (is_network_up ping l = false ↔ ∀ d ∈ PING_DESTINATIONS, ping d = false) := by
  have hm : ∀ d, d ∈ l ↔ d ∈ PING_DESTINATIONS := fun d => h.mem_iff
  constructor
  · simp [is_network_up, List.any_eq_true, hm]
  · simp [is_network_up, List.any_eq_false, hm]

/-- Witness for C4: a shuffle of the destinations with only the last
default destination answering. -/
theorem is_network_up_iff_some_destination_reachable_witness :
    (is_network_up (fun d => d == "8.8.8.8")
        ["8.8.8.8", "1.1.1.1", "4.2.2.2"] = true ↔
      ∃ d ∈ PING_DESTINATIONS, (fun d => d == "8.8.8.8") d = true) ∧
    (is_network_up (fun d => d == "8.8.8.8")
        ["8.8.8.8", "1.1.1.1", "4.2.2.2"] = false ↔
      ∀ d ∈ PING_DESTINATIONS, (fun d => d == "8.8.8.8") d = false) :=
  is_network_up_iff_some_destination_reachable (fun d => d == "8.8.8.8")
    ["8.8.8.8", "1.1.1.1", "4.2.2.2"] (by decide)

/-- C5: with a positive reboot limit, the counter stays in
`[0, reboot_limit]` in every state reachable from the initial state by
loop iterations. -/
theorem reboot_count_bounded_by_limit (cfg : Config)
    (h : 0 < cfg.reboot_limit) (vs : List Bool) :
    0 ≤ ((run_loop cfg vs init_state).reboot_count : Int) ∧
    ((run_loop cfg vs init_state).reboot_count : Int) ≤ cfg.reboot_limit := by
  refine ⟨Int.ofNat_nonneg _, ?_⟩
  exact run_loop_invariant cfg
    (fun s => (s.reboot_count : Int) ≤ cfg.reboot_limit)
    (fun up s hs => stepIter_count_le cfg h up s hs) vs init_state
    (by simp [init_state]; omega)

/-- Witness for C5: five downs at the default limit of 3. -/
theorem reboot_count_bounded_by_limit_witness :
    0 ≤ ((run_loop default_config [false, false, false, false, false]
        init_state).reboot_count : Int) ∧
    ((run_loop default_config [false, false, false, false, false]
        init_state).reboot_count : Int) ≤ default_config.reboot_limit :=
  reboot_count_bounded_by_limit default_config (by decide)
    [false, false, false, false, false]

/-- C6: with `reboot_limit = 0` the limit branch is never taken: every
down verdict pulses exactly once, sleeps `post_reboot_interval` and
increments the counter, and `reboots_reached_limit` stays false in every
reachable state. -/
theorem limit_zero_always_pulses_flag_never_set (cfg : Config)
    (h : cfg.reboot_limit = 0) :
    (∀ s, (stepIter cfg false s).pulses = 1 ∧
          (stepIter cfg false s).sleep = cfg.post_reboot_interval ∧
          (stepIter cfg false s).state.reboot_count = s.reboot_count + 1) ∧
    (∀ vs, (run_loop cfg vs init_state).reboots_reached_limit = false) := by
  constructor
  · intro s
    have hlim : ¬(0 < cfg.reboot_limit ∧ (s.reboot_count : Int) ≥ cfg.reboot_limit) := by
      omega
    simp [stepIter, hlim]
  · intro vs
    exact run_loop_invariant cfg (fun s => s.reboots_reached_limit = false)
      (fun up s hs => stepIter_flag_stays_false cfg (by omega) up s hs)
      vs init_state rfl

/-- Witness for C6 at the defaults with the limit set to 0. -/
theorem limit_zero_always_pulses_flag_never_set_witness :
    (∀ s, (stepIter { default_config with reboot_limit := 0 } false s).pulses = 1 ∧
          (stepIter { default_config with reboot_limit := 0 } false s).sleep =
            ({ default_config with reboot_limit := 0 } : Config).post_reboot_interval ∧
          (stepIter { default_config with reboot_limit := 0 } false s).state.reboot_count =
            s.reboot_count + 1) ∧
    (∀ vs, (run_loop { default_config with reboot_limit := 0 } vs
        init_state).reboots_reached_limit = false) :=
  limit_zero_always_pulses_flag_never_set
    { default_config with reboot_limit := 0 } (by decide)

/-- C7: from any state with a positive counter or the limit flag set, an
up verdict clears both fields, logs the recovery message, performs no
pulse and sleeps `ping_interval`. -/
theorem up_verdict_recovery_clears_state (cfg : Config) (s : RebooterState)
    (h : 0 < s.reboot_count ∨ s.reboots_reached_limit = true) :
    stepIter cfg true s =
      { state := { reboot_count := 0, reboots_reached_limit := false },
        pulses := 0, sleep := cfg.ping_interval,
        logs := [.networkBackUp] } := by
  simp [stepIter, h]

/-- Witness for C7 at the state with the flag set after backoff. -/
theorem up_verdict_recovery_clears_state_witness :
    stepIter default_config true
        { reboot_count := 0, reboots_reached_limit := true } =
      { state := { reboot_count := 0, reboots_reached_limit := false },
        pulses := 0, sleep := default_config.ping_interval,
        logs := [.networkBackUp] } :=
  up_verdict_recovery_clears_state default_config
    { reboot_count := 0, reboots_reached_limit := true } (Or.inr rfl)

/-- C8: any number of consecutive up verdicts leaves the baseline state
(zero counter, flag unset) unchanged. -/
theorem up_verdicts_idempotent_on_baseline (cfg : Config) (n : Nat) :
    run_loop cfg (List.replicate n true) init_state = init_state := by
  induction n with
  | zero => simp [run_loop]
  | succ n ih =>
      rw [List.replicate_succ, run_loop_cons]
      have hstep : (stepIter cfg true init_state).state = init_state := by
        simp [stepIter, init_state]
      rw [hstep]
      exact ih

/-- C10: an argument set passing the five checked constraints is accepted
no matter what `reboot_limit` is (in particular a negative one), and any
configuration with `reboot_limit ≤ 0` behaves exactly like
`reboot_limit = 0`: every down verdict pulses and the limit flag never
becomes true. -/
theorem negative_limit_accepted_behaves_like_zero (a : Args)
    (h1 : 0 < a.relay_gpio_pin) (h2 : a.relay_gpio_pin < MAX_PIN_NUM)
    (h3 : 0 < a.pulse_for_seconds)
    (h4 : MIN_PING_INTERVAL ≤ a.ping_interval)
    (h5 : a.ping_interval ≤ a.post_reboot_interval)
    (h6 : a.post_reboot_interval ≤ a.post_reboot_limit_interval) :
    main_dispatch a = .runMainLoop (configOfArgs a) ∧
    ∀ cfg : Config, cfg.reboot_limit ≤ 0 →
      (∀ up s, stepIter cfg up s = stepIter { cfg with reboot_limit := 0 } up s) ∧
      (∀ s, (stepIter cfg false s).pulses = 1) ∧
      (∀ vs, (run_loop cfg vs init_state).reboots_reached_limit = false) := by
  constructor
  · have c1 : ¬¬(0 < a.relay_gpio_pin ∧ a.relay_gpio_pin < MAX_PIN_NUM) :=
      not_not_intro ⟨h1, h2⟩
    have c2 : ¬(a.pulse_for_seconds ≤ 0) := not_le.mpr h3
    have c3 : ¬(a.ping_interval < MIN_PING_INTERVAL) := not_lt.mpr h4
    have c4 : ¬(a.post_reboot_interval < a.ping_interval) := not_lt.mpr h5
    have c5 : ¬(a.post_reboot_limit_interval < a.post_reboot_interval) :=
      not_lt.mpr h6
    have hv : validate_args a = none := by
      unfold validate_args
      rw [if_neg c1, if_neg c2, if_neg c3, if_neg c4, if_neg c5]
    simp [main_dispatch, hv]
  · intro cfg hcfg
    refine ⟨?_, ?_, ?_⟩
    · intro up s
      have hlim : ¬(0 < cfg.reboot_limit ∧ (s.reboot_count : Int) ≥ cfg.reboot_limit) := by
        omega
      cases up <;> simp [stepIter, hlim]
    · intro s
      have hlim : ¬(0 < cfg.reboot_limit ∧ (s.reboot_count : Int) ≥ cfg.reboot_limit) := by
        omega
      simp [stepIter, hlim]
    · intro vs
      exact run_loop_invariant cfg (fun s => s.reboots_reached_limit = false)
        (fun up s hs => stepIter_flag_stays_false cfg hcfg up s hs)
        vs init_state rfl

/-- Witness for C10: the defaults with `reboot_limit = -1`. -/
theorem negative_limit_accepted_behaves_like_zero_witness :
    main_dispatch { default_args with reboot_limit := -1 } =
      .runMainLoop (configOfArgs { default_args with reboot_limit := -1 }) ∧
    ∀ cfg : Config, cfg.reboot_limit ≤ 0 →
      (∀ up s, stepIter cfg up s = stepIter { cfg with reboot_limit := 0 } up s) ∧
      (∀ s, (stepIter cfg false s).pulses = 1) ∧
      (∀ vs, (run_loop cfg vs init_state).reboots_reached_limit = false) :=
  negative_limit_accepted_behaves_like_zero
    { default_args with reboot_limit := -1 }
    (by decide) (by decide) (by decide) (by decide)
    (by norm_num [default_args, PING_INTERVAL, POST_REBOOT_INTERVAL])
    (by norm_num [default_args, POST_REBOOT_INTERVAL, POST_REBOOT_LIMIT_INTERVAL])

end RouterRebooter

namespace PulseGpioPin

/-- C9: the normal run of `with pin_pulser(pin) as pulse_pin:
pulse_pin(for_seconds)` drives the pin on, holds it for the requested
duration, drives it off, and then releases it via `GPIO.cleanup()`; and
whether the body completes or raises after any prefix of its actions, the
`finally` clause runs `GPIO.cleanup()`, so the control line is always
left inactive. -/
theorem pin_pulser_leaves_line_inactive (pin : Int) (for_seconds : ℚ) :
    pin_pulser_trace pin for_seconds 6 =
      [.setwarnings false, .setmodeBCM, .setupOut pin,
       .output pin true, .sleepFor for_seconds, .output pin false,
       .cleanup] ∧
    ∀ k, lineActiveAfter pin (pin_pulser_trace pin for_seconds k) = false := by
  constructor
  · rfl
  · intro k
    simp [lineActiveAfter, pin_pulser_trace, List.foldl_append, applyAction]

end PulseGpioPin
